import Mathlib

/-!
# Verification of the `CostOptimizer` usage governor

Shallow embedding of `src/streamlit/src/ai/llm/optimizer.py`.

Modelling conventions:
* Python strings are `List Char` (sequences of code points; slicing and
  `len` act on code points, matching `List.take` / `List.length`).
* Python numbers read from the analysis-data mapping, and monetary costs,
  are rationals (`ℚ`); exact arithmetic stands in for IEEE floats.
* Token counts passed to `track_usage` are `ℤ` (Python ints, possibly
  negative); request counts are `ℕ`.
* Calendar dates are `ℕ` (ordinal day numbers); `datetime.now().date()`
  becomes an explicit `today` argument to each stateful method.
* Python dicts become association lists with a `dictGet` lookup mirroring
  `dict.get`; an optional key of a typed mapping becomes an `Option` field.
* Fields read with `.get(key, default)` on a possibly-absent sub-dict use
  `Option.getD` with the same default.
-/

namespace CostOptimizer

/-- `dict.get k`: first binding of `k` in an association list, if any. -/
def dictGet {α β : Type} [DecidableEq α] (k : α) : List (α × β) → Option β
  | [] => none
  | (k', v) :: t => if k' = k then some v else dictGet k t

/-- The per-day usage record `{"requests": ..., "tokens": ..., "cost": ...}`. -/
structure UsageRecord where
  requests : ℕ
  tokens : ℤ
  cost : ℚ
  deriving DecidableEq, Repr

/-- `dict[k] = v`: overwrite the binding of `k`, or append it if absent. -/
def dictSet {α β : Type} [DecidableEq α] (k : α) (v : β) :
    List (α × β) → List (α × β)
  | [] => [(k, v)]
  | (k', v') :: t => if k' = k then (k, v) :: t else (k', v') :: dictSet k v t

/-- The `meta_tags` sub-dict of the technical-SEO section. -/
structure MetaTags where
  meta_description : Option (List Char)
  title : Option (List Char)
  deriving DecidableEq

/-- The `technical_seo` section: optional `meta_tags` and `headings` keys.
`headings` is a dict from heading names to counts. -/
structure TechnicalSeo where
  meta_tags : Option MetaTags
  headings : Option (List (String × ℚ))
  deriving DecidableEq

/-- The `content` sub-dict of the scraped-data section. -/
structure Content where
  word_count : Option ℚ
  paragraphs : Option ℚ
  deriving DecidableEq

/-- The `scraped_data` section: optional `content` key. -/
structure ScrapedData where
  content : Option Content
  deriving DecidableEq

/-- The `metrics` sub-dict of the Moz section. -/
structure Metrics where
  total_links : Option ℚ
  spam_score : Option ℚ
  deriving DecidableEq

/-- The `moz_data` section: optional `metrics` key. -/
structure MozData where
  metrics : Option Metrics
  deriving DecidableEq

/-- The analysis-data mapping passed to `should_use_llm`: three optional
top-level sections. -/
structure AnalysisInput where
  technical_seo : Option TechnicalSeo
  scraped_data : Option ScrapedData
  moz_data : Option MozData
  deriving DecidableEq

/-- The mutable fields of a `CostOptimizer` instance, together with its
configuration (set once in `__init__` and never mutated). -/
structure OptimizerState where
  max_daily_requests : ℕ
  token_buffer : ℚ
  complexity_threshold : ℚ
  usage_history : List (ℕ × UsageRecord)
  last_reset : ℕ
  deriving DecidableEq

/-- The empty technical-SEO section, default of `data.get("technical_seo", \x7b\x7d)`. -/
def TechnicalSeo.empty : TechnicalSeo := ⟨none, none⟩

/-- The empty scraped-data section, default of `data.get("scraped_data", \x7b\x7d)`. -/
def ScrapedData.empty : ScrapedData := ⟨none⟩

/-- The empty Moz section, default of `data.get("moz_data", \x7b\x7d)`. -/
def MozData.empty : MozData := ⟨none⟩

/-- The empty `content` sub-dict. -/
def Content.empty : Content := ⟨none, none⟩

/-- The empty `metrics` sub-dict. -/
def Metrics.empty : Metrics := ⟨none, none⟩

/-- The all-zeros usage record `{"requests": 0, "tokens": 0, "cost": 0.0}`. -/
def UsageRecord.zero : UsageRecord := ⟨0, 0, 0⟩

/-- `_calculate_technical_complexity`: penalties from the `meta_tags` and
`headings` sub-sections, divided by the number of applicable factors. -/
def calculate_technical_complexity (tech_data : TechnicalSeo) : ℚ :=
  let meta : ℚ × ℕ :=
    match tech_data.meta_tags with
    | some mt =>
        ((if mt.meta_description.getD [] = [] then (0.8 : ℚ) else 0) +
         (if 60 < (mt.title.getD []).length then (0.6 : ℚ) else 0), 2)
    | none => (0, 0)
  let heads : ℚ × ℕ :=
    match tech_data.headings with
    | some hs =>
        ((if (dictGet "h1" hs).getD 0 ≠ 1 then (0.7 : ℚ) else 0) +
         (if 15 < (hs.map Prod.snd).sum then (0.5 : ℚ) else 0), 2)
    | none => (0, 0)
  let score := meta.1 + heads.1
  let factors := meta.2 + heads.2
  if 0 < factors then score / (factors : ℚ) else 0

/-- `_calculate_content_complexity`: penalties from the `content` sub-dict
(word count, then paragraph count), divided by the applicable factors. -/
def calculate_content_complexity (content_data : ScrapedData) : ℚ :=
  let wordPart : ℚ × ℕ :=
    match content_data.content with
    | some c =>
        ((if 1000 < c.word_count.getD 0 then (0.8 : ℚ)
          else if c.word_count.getD 0 < 300 then (0.6 : ℚ) else 0), 1)
    | none => (0, 0)
  let paraPart : ℚ × ℕ :=
    match (content_data.content.getD Content.empty).paragraphs with
    | some p => ((if 10 < p then (0.7 : ℚ) else 0), 1)
    | none => (0, 0)
  let score := wordPart.1 + paraPart.1
  let factors := wordPart.2 + paraPart.2
  if 0 < factors then score / (factors : ℚ) else 0

/-- `_calculate_backlink_complexity`: penalties from `moz_data.metrics`
(`total_links`, `spam_score`), each read with default 0; always 2 factors. -/
def calculate_backlink_complexity (moz_data : MozData) : ℚ :=
  let total_links := (moz_data.metrics.getD Metrics.empty).total_links.getD 0
  let s1 : ℚ := if total_links < 10 then 0.9
                else if 50 < total_links then 0.5 else 0
  let spam_score := (moz_data.metrics.getD Metrics.empty).spam_score.getD 0
  let s2 : ℚ := if 20 < spam_score then 0.7 else 0
  let score := s1 + s2
  let factors : ℕ := 1 + 1
  if 0 < factors then score / (factors : ℚ) else 0

/-- `_calculate_complexity`: mean of the three sub-scores (the list always
has three entries, so the empty-list guard never fires). -/
def calculate_complexity (data : AnalysisInput) : ℚ :=
  let tech_score := calculate_technical_complexity
      (data.technical_seo.getD TechnicalSeo.empty)
  let content_score := calculate_content_complexity
      (data.scraped_data.getD ScrapedData.empty)
  let backlink_score := calculate_backlink_complexity
      (data.moz_data.getD MozData.empty)
  let complexity_scores := [tech_score, content_score, backlink_score]
  if 0 < complexity_scores.length then
    complexity_scores.sum / (complexity_scores.length : ℚ)
  else 0

/-- `_check_daily_quota`: today's request count (0 if absent) is below
`max_daily_requests`. -/
def check_daily_quota (today : ℕ) (s : OptimizerState) : Bool :=
  let current_requests :=
    ((dictGet today s.usage_history).getD UsageRecord.zero).requests
  decide (current_requests < s.max_daily_requests)

/-- `should_use_llm`: refuse when the daily quota is exhausted; otherwise
compute the complexity score and return `true` on both branches of the
threshold comparison (the low-complexity branch is a forced `True`). -/
def should_use_llm (today : ℕ) (s : OptimizerState) (data : AnalysisInput) :
    Bool :=
  if ¬ check_daily_quota today s then false
  else
    let complexity_score := calculate_complexity data
    if s.complexity_threshold * 0.8 < complexity_score then true
    else true

/-- `track_usage`: clear all history when `today` is strictly after
`last_reset`; then create-or-update today's record, incrementing `requests`
by 1 and adding `tokens_used` and `cost`. -/
def track_usage (today : ℕ) (tokens_used : ℤ) (cost : ℚ)
    (s : OptimizerState) : OptimizerState :=
  let s1 :=
    if s.last_reset < today then
      { s with usage_history := [], last_reset := today }
    else s
  let rec0 := (dictGet today s1.usage_history).getD UsageRecord.zero
  let rec1 : UsageRecord :=
    ⟨rec0.requests + 1, rec0.tokens + tokens_used, rec0.cost + cost⟩
  { s1 with usage_history := dictSet today rec1 s1.usage_history }

/-- `get_usage_stats`: today's record, the all-zeros record if absent;
no side effect. -/
def get_usage_stats (today : ℕ) (s : OptimizerState) : UsageRecord :=
  (dictGet today s.usage_history).getD UsageRecord.zero

/-- `estimate_tokens`: `len(text) // 4`. -/
def estimate_tokens (text : List Char) : ℕ :=
  text.length / 4

/-- `optimize_prompt`: return the prompt unchanged when its estimate fits
`max_tokens`; otherwise truncate to
`int(len(prompt) * (max_tokens / estimated) * token_buffer)` characters. -/
def optimize_prompt (token_buffer : ℚ) (prompt : List Char)
    (max_tokens : ℕ) : List Char :=
  let estimated_tokens := estimate_tokens prompt
  if estimated_tokens ≤ max_tokens then prompt
  else
    let ratio : ℚ := (max_tokens : ℚ) / (estimated_tokens : ℚ)
    let truncate_length :=
      (⌊(prompt.length : ℚ) * ratio * token_buffer⌋).toNat
    prompt.take truncate_length

/-- A fresh `CostOptimizer` constructed on date `d`: empty history,
`last_reset = d`, configuration as supplied. -/
def initState (maxReq : ℕ) (tb ct : ℚ) (d : ℕ) : OptimizerState :=
  ⟨maxReq, tb, ct, [], d⟩

/-- `n` successive `track_usage` calls on date `d`, the `i`-th reporting
`(args i).1` tokens and `(args i).2` cost. -/
def iterTrack (d : ℕ) (args : ℕ → ℤ × ℚ) : ℕ → OptimizerState → OptimizerState
  | 0, s => s
  | n + 1, s => track_usage d (args n).1 (args n).2 (iterTrack d args n s)


/-! ## Helper lemmas about dict operations -/

/-- Looking up the key just written returns the written value. -/
theorem dictGet_dictSet_self {α β : Type} [DecidableEq α] (k : α) (v : β)
    (l : List (α × β)) : dictGet k (dictSet k v l) = some v := by
  induction l with
  | nil => simp [dictGet, dictSet]
  | cons p t ih =>
      obtain ⟨k', v'⟩ := p
      by_cases h : k' = k <;> simp [dictGet, dictSet, h, ih]

/-- A key bound in no entry of the list looks up to `none`. -/
theorem dictGet_eq_none {α β : Type} [DecidableEq α] (k : α)
    (l : List (α × β)) (h : ∀ p ∈ l, p.1 ≠ k) : dictGet k l = none := by
  induction l with
  | nil => rfl
  | cons p t ih =>
      obtain ⟨k', v'⟩ := p
      have hk : k' ≠ k := h (k', v') (by simp)
      simp only [dictGet, if_neg hk]
      exact ih fun q hq => h q (by simp [hq])

/-! ## Helper lemmas about the quota gate -/

/-- The quota check succeeds exactly when today's recorded request count is
below the configured maximum. -/
theorem check_daily_quota_iff (today : ℕ) (s : OptimizerState) :
    check_daily_quota today s = true ↔
      (get_usage_stats today s).requests < s.max_daily_requests := by
  simp [check_daily_quota, get_usage_stats]

/-- Both complexity branches of `should_use_llm` return `true`, so the
decision coincides with the quota check. -/
theorem should_use_llm_eq_quota (today : ℕ) (s : OptimizerState)
    (data : AnalysisInput) :
    should_use_llm today s data = check_daily_quota today s := by
  unfold should_use_llm
  split_ifs <;> simp_all

/-! ## Helper lemmas about usage tracking -/

/-- `track_usage` on a date not after `last_reset` skips the rollover and
just writes the incremented record for that date. -/
theorem track_usage_same_day (today : ℕ) (t : ℤ) (c : ℚ)
    (s : OptimizerState) (h : ¬ s.last_reset < today) :
    track_usage today t c s =
      { s with usage_history :=
          (dictSet today
            ⟨(get_usage_stats today s).requests + 1,
             (get_usage_stats today s).tokens + t,
             (get_usage_stats today s).cost + c⟩ s.usage_history) } := by
  unfold track_usage get_usage_stats
  rw [if_neg h]

/-- Reading back the date just written by `track_usage` on a same-day call
returns the incremented record. -/
theorem get_usage_stats_track_same_day (today : ℕ) (t : ℤ) (c : ℚ)
    (s : OptimizerState) (h : ¬ s.last_reset < today) :
    get_usage_stats today (track_usage today t c s) =
      ⟨(get_usage_stats today s).requests + 1,
       (get_usage_stats today s).tokens + t,
       (get_usage_stats today s).cost + c⟩ := by
  rw [track_usage_same_day today t c s h]
  unfold get_usage_stats
  rw [dictGet_dictSet_self]
  rfl

/-- Along `iterTrack` from a fresh state, the reset date and configuration
are unchanged and the request count equals the number of calls. -/
theorem iterTrack_invariant (N : ℕ) (tb ct : ℚ) (d : ℕ) (args : ℕ → ℤ × ℚ)
    (n : ℕ) :
    (iterTrack d args n (initState N tb ct d)).last_reset = d ∧
    (iterTrack d args n (initState N tb ct d)).max_daily_requests = N ∧
    (get_usage_stats d (iterTrack d args n (initState N tb ct d))).requests
      = n := by
  induction n with
  | zero =>
      refine ⟨rfl, rfl, ?_⟩
      simp [iterTrack, initState, get_usage_stats, dictGet, UsageRecord.zero]
  | succ n ih =>
      obtain ⟨h1, h2, h3⟩ := ih
      have hnd : ¬ (iterTrack d args n (initState N tb ct d)).last_reset < d :=
        by rw [h1]; exact lt_irrefl d
      refine ⟨?_, ?_, ?_⟩
      · rw [iterTrack, track_usage_same_day _ _ _ _ hnd]
        exact h1
      · rw [iterTrack, track_usage_same_day _ _ _ _ hnd]
        exact h2
      · rw [iterTrack, get_usage_stats_track_same_day _ _ _ _ hnd, h3]

/-- The quota check fails exactly when today's recorded request count has
reached the configured maximum. -/
theorem check_daily_quota_eq_false_iff (today : ℕ) (s : OptimizerState) :
    check_daily_quota today s = false ↔
      s.max_daily_requests ≤ (get_usage_stats today s).requests := by
  simp [check_daily_quota, get_usage_stats]

/-! ## Bounds on the three complexity sub-scores -/

/-- The technical sub-score always lies in `[0, 1]`. -/
theorem technical_bounds (td : TechnicalSeo) :
    0 ≤ calculate_technical_complexity td ∧
      calculate_technical_complexity td ≤ 1 := by
  unfold calculate_technical_complexity
  obtain ⟨mt, hs⟩ := td
  cases mt <;> cases hs <;> dsimp only <;> split_ifs <;> norm_num

/-- The content sub-score always lies in `[0, 1]`. -/
theorem content_bounds (cd : ScrapedData) :
    0 ≤ calculate_content_complexity cd ∧
      calculate_content_complexity cd ≤ 1 := by
  unfold calculate_content_complexity
  obtain ⟨c⟩ := cd
  cases c with
  | none =>
      dsimp only [Content.empty, Option.getD]
      split_ifs <;> norm_num
  | some c =>
      obtain ⟨w, p⟩ := c
      cases p <;> dsimp only [Content.empty, Option.getD] <;> split_ifs <;>
        norm_num

/-- The backlink sub-score always lies in `[0, 1]`. -/
theorem backlink_bounds (md : MozData) :
    0 ≤ calculate_backlink_complexity md ∧
      calculate_backlink_complexity md ≤ 1 := by
  unfold calculate_backlink_complexity
  dsimp only
  split_ifs <;> norm_num

/-! ## Claim theorems -/

/-- C1: whenever today's recorded request count is strictly below
`max_requests_per_day`, `should_use_llm` returns `true` for every analysis
input — the low-complexity branch is a fail-open override, so the
complexity value never turns the decision to `false` when quota allows. -/
theorem c1_fail_open_gate (today : ℕ) (s : OptimizerState)
    (data : AnalysisInput)
    (h : (get_usage_stats today s).requests < s.max_daily_requests) :
    should_use_llm today s data = true := by
  rw [should_use_llm_eq_quota, check_daily_quota_iff]
  exact h

/-- Witness for C1: a fresh governor with quota 100 approves the empty
input. -/
theorem c1_fail_open_gate_witness :
    should_use_llm 0 (initState 100 0.9 0.2 0) ⟨none, none, none⟩ = true :=
  c1_fail_open_gate 0 (initState 100 0.9 0.2 0) ⟨none, none, none⟩
    (by norm_num [get_usage_stats, initState, dictGet, UsageRecord.zero])

/-- C2: from a fresh state with `max_requests_per_day = N`, after exactly
`N` `track_usage` calls on the same date `should_use_llm` returns `false`
for every input on that date, and before the `N`-th call it returns `true`
for every input. -/
theorem c2_quota_boundary (N : ℕ) (tb ct : ℚ) (d : ℕ) (args : ℕ → ℤ × ℚ)
    (data : AnalysisInput) :
    (∀ k, k < N →
      should_use_llm d (iterTrack d args k (initState N tb ct d)) data
        = true) ∧
    should_use_llm d (iterTrack d args N (initState N tb ct d)) data
      = false := by
  constructor
  · intro k hk
    obtain ⟨h1, h2, h3⟩ := iterTrack_invariant N tb ct d args k
    rw [should_use_llm_eq_quota, check_daily_quota_iff, h2, h3]
    exact hk
  · obtain ⟨h1, h2, h3⟩ := iterTrack_invariant N tb ct d args N
    rw [should_use_llm_eq_quota, check_daily_quota_eq_false_iff, h2, h3]

/-- Witness for C2: with quota 2, the gate approves after 1 tracked call
and refuses after 2. -/
theorem c2_quota_boundary_witness :
    should_use_llm 0 (iterTrack 0 (fun _ => (10, 1)) 1 (initState 2 0.9 0.2 0))
      ⟨none, none, none⟩ = true ∧
    should_use_llm 0 (iterTrack 0 (fun _ => (10, 1)) 2 (initState 2 0.9 0.2 0))
      ⟨none, none, none⟩ = false :=
  ⟨(c2_quota_boundary 2 0.9 0.2 0 (fun _ => (10, 1)) ⟨none, none, none⟩).1 1
      (by norm_num),
   (c2_quota_boundary 2 0.9 0.2 0 (fun _ => (10, 1)) ⟨none, none, none⟩).2⟩

/-- C3: for every well-typed analysis input, the complexity score lies in
the closed interval `[0, 1]`. -/
theorem c3_complexity_in_unit_interval (data : AnalysisInput) :
    0 ≤ calculate_complexity data ∧ calculate_complexity data ≤ 1 := by
  obtain ⟨ht0, ht1⟩ :=
    technical_bounds (data.technical_seo.getD TechnicalSeo.empty)
  obtain ⟨hc0, hc1⟩ :=
    content_bounds (data.scraped_data.getD ScrapedData.empty)
  obtain ⟨hb0, hb1⟩ :=
    backlink_bounds (data.moz_data.getD MozData.empty)
  unfold calculate_complexity
  dsimp only
  rw [if_pos (by norm_num)]
  simp only [List.sum_cons, List.sum_nil, List.length_cons, List.length_nil,
    add_zero]
  constructor
  · apply div_nonneg (by linarith) (by norm_num)
  · rw [div_le_one (by norm_num)]
    push_cast
    linarith

/-- C4: usage history is kept for at most one calendar date: a
`track_usage` call on a date strictly later than `last_reset` clears all
prior records before recording, so on the later date `get_usage_stats`
returns the all-zeros record beforehand and the call starts a fresh record
with `requests = 1`. The hypothesis states the history invariant that
every recorded date is at most `last_reset`. -/
theorem c4_day_rollover (s : OptimizerState) (D : ℕ) (t : ℤ) (c : ℚ)
    (hinv : ∀ p ∈ s.usage_history, p.1 ≤ s.last_reset)
    (hlt : s.last_reset < D) :
    get_usage_stats D s = UsageRecord.zero ∧
    (track_usage D t c s).usage_history = [(D, ⟨1, t, c⟩)] ∧
    get_usage_stats D (track_usage D t c s) = ⟨1, t, c⟩ := by
  have hnone : dictGet D s.usage_history = none := by
    apply dictGet_eq_none
    intro p hp
    exact Nat.ne_of_lt (lt_of_le_of_lt (hinv p hp) hlt)
  have hhist : (track_usage D t c s).usage_history = [(D, ⟨1, t, c⟩)] := by
    unfold track_usage
    rw [if_pos hlt]
    dsimp only
    norm_num [dictGet, dictSet, UsageRecord.zero]
  refine ⟨?_, hhist, ?_⟩
  · unfold get_usage_stats
    rw [hnone]
    rfl
  · unfold get_usage_stats
    rw [hhist]
    norm_num [dictGet]

/-- Witness for C4: usage of 5 requests recorded on day 0; on day 1 the
stats read back zeros and a tracked call starts a fresh record. -/
theorem c4_day_rollover_witness :
    get_usage_stats 1
      (⟨100, 0.9, 0.2, [(0, ⟨5, 500, 1⟩)], 0⟩ : OptimizerState)
      = UsageRecord.zero ∧
    (track_usage 1 7 2
      (⟨100, 0.9, 0.2, [(0, ⟨5, 500, 1⟩)], 0⟩ : OptimizerState)).usage_history
      = [(1, ⟨1, 7, 2⟩)] ∧
    get_usage_stats 1 (track_usage 1 7 2
      (⟨100, 0.9, 0.2, [(0, ⟨5, 500, 1⟩)], 0⟩ : OptimizerState))
      = ⟨1, 7, 2⟩ :=
  c4_day_rollover ⟨100, 0.9, 0.2, [(0, ⟨5, 500, 1⟩)], 0⟩ 1 7 2
    (by decide) (by decide)

/-- C5, counterexample: `track_usage` does not reject negative
`tokens_used` or `cost`; at a concrete state on day 0, tracking
`tokens_used = -5`, `cost = -1` decreases both cumulative totals, so the
totals are not left unchanged by any validation error. -/
theorem c5_negative_usage_counterexample :
    let s : OptimizerState := ⟨100, 0.9, 0.2, [(0, ⟨1, 100, 10⟩)], 0⟩
    (get_usage_stats 0 (track_usage 0 (-5) (-1) s)).tokens
        < (get_usage_stats 0 s).tokens ∧
    (get_usage_stats 0 (track_usage 0 (-5) (-1) s)).cost
        < (get_usage_stats 0 s).cost ∧
    get_usage_stats 0 (track_usage 0 (-5) (-1) s) = ⟨2, 95, 9⟩ := by
  norm_num [get_usage_stats, track_usage, dictGet, dictSet, UsageRecord.zero]

/-- C5, amended: `track_usage` performs no validation of negative inputs;
a same-day call always increments `requests` by 1 and adds `tokens_used`
and `cost` to the cumulative totals as given, so a negative `tokens_used`
silently decreases the token total and a negative `cost` silently
decreases the cost total. -/
theorem c5_negative_usage_amended (s : OptimizerState) (today : ℕ) (t : ℤ)
    (c : ℚ) (hd : s.last_reset = today) :
    (get_usage_stats today (track_usage today t c s)).tokens
        = (get_usage_stats today s).tokens + t ∧
    (get_usage_stats today (track_usage today t c s)).cost
        = (get_usage_stats today s).cost + c ∧
    (get_usage_stats today (track_usage today t c s)).requests
        = (get_usage_stats today s).requests + 1 ∧
    (t < 0 → (get_usage_stats today (track_usage today t c s)).tokens
        < (get_usage_stats today s).tokens) ∧
    (c < 0 → (get_usage_stats today (track_usage today t c s)).cost
        < (get_usage_stats today s).cost) := by
  have hnd : ¬ s.last_reset < today := by
    rw [hd]
    exact lt_irrefl today
  rw [get_usage_stats_track_same_day today t c s hnd]
  refine ⟨rfl, rfl, rfl, ?_, ?_⟩
  · intro ht
    dsimp only
    omega
  · intro hc
    dsimp only
    linarith

/-- Witness for the amended C5: tracking `-5` tokens at cost `-1` on day 0
is accepted and decreases the token total from 100 to 95 and the cost
total from 10 to 9. -/
theorem c5_negative_usage_amended_witness :
    let s : OptimizerState := ⟨100, 0.9, 0.2, [(0, ⟨1, 100, 10⟩)], 0⟩
    (get_usage_stats 0 (track_usage 0 (-5) (-1) s)).tokens
        = (get_usage_stats 0 s).tokens + (-5) ∧
    (get_usage_stats 0 (track_usage 0 (-5) (-1) s)).cost
        = (get_usage_stats 0 s).cost + (-1) ∧
    (get_usage_stats 0 (track_usage 0 (-5) (-1) s)).requests
        = (get_usage_stats 0 s).requests + 1 ∧
    (get_usage_stats 0 (track_usage 0 (-5) (-1) s)).tokens
        < (get_usage_stats 0 s).tokens ∧
    (get_usage_stats 0 (track_usage 0 (-5) (-1) s)).cost
        < (get_usage_stats 0 s).cost :=
  ⟨(c5_negative_usage_amended ⟨100, 0.9, 0.2, [(0, ⟨1, 100, 10⟩)], 0⟩ 0 (-5)
      (-1) rfl).1,
   (c5_negative_usage_amended ⟨100, 0.9, 0.2, [(0, ⟨1, 100, 10⟩)], 0⟩ 0 (-5)
      (-1) rfl).2.1,
   (c5_negative_usage_amended ⟨100, 0.9, 0.2, [(0, ⟨1, 100, 10⟩)], 0⟩ 0 (-5)
      (-1) rfl).2.2.1,
   (c5_negative_usage_amended ⟨100, 0.9, 0.2, [(0, ⟨1, 100, 10⟩)], 0⟩ 0 (-5)
      (-1) rfl).2.2.2.1 (by norm_num),
   (c5_negative_usage_amended ⟨100, 0.9, 0.2, [(0, ⟨1, 100, 10⟩)], 0⟩ 0 (-5)
      (-1) rfl).2.2.2.2 (by norm_num)⟩

/-- C6: for a 1000-character prompt with `max_tokens = 100` and
`token_buffer = 0.9`, the estimate is 250 tokens, the truncation length is
`int(1000 * (100 / 250) * 0.9) = 360`, and the result is exactly the first
360 characters of the prompt. -/
theorem c6_truncation_example (prompt : List Char)
    (h : prompt.length = 1000) :
    estimate_tokens prompt = 250 ∧
    (⌊(1000 : ℚ) * ((100 : ℚ) / ((estimate_tokens prompt : ℚ))) * 0.9⌋).toNat
      = 360 ∧
    optimize_prompt 0.9 prompt 100 = prompt.take 360 := by
  have he : estimate_tokens prompt = 250 := by
    rw [estimate_tokens, h]
  refine ⟨he, ?_, ?_⟩
  · rw [he]
    norm_num
    rfl
  · unfold optimize_prompt
    dsimp only
    rw [he, h, if_neg (by norm_num)]
    norm_num
    rfl

/-- Witness for C6: the 1000-character prompt of all `'a'`s truncates to
its first 360 characters. -/
theorem c6_truncation_example_witness :
    (List.replicate 1000 'a').length = 1000 ∧
    (estimate_tokens (List.replicate 1000 'a') = 250 ∧
     (⌊(1000 : ℚ) *
        ((100 : ℚ) / ((estimate_tokens (List.replicate 1000 'a') : ℚ))) *
        0.9⌋).toNat = 360 ∧
     optimize_prompt 0.9 (List.replicate 1000 'a') 100
        = (List.replicate 1000 'a').take 360) :=
  ⟨by rw [List.length_replicate],
   c6_truncation_example (List.replicate 1000 'a')
     (by rw [List.length_replicate])⟩

/-- C7: whenever the estimated token count of the prompt fits
`max_tokens`, `optimize_prompt` returns the original prompt unchanged. -/
theorem c7_identity_under_budget (tb : ℚ) (prompt : List Char)
    (max_tokens : ℕ) (h : estimate_tokens prompt ≤ max_tokens) :
    optimize_prompt tb prompt max_tokens = prompt := by
  unfold optimize_prompt
  dsimp only
  rw [if_pos h]

/-- Witness for C7: a 2-character prompt (estimate 0) with budget 5 is
returned unchanged. -/
theorem c7_identity_under_budget_witness :
    optimize_prompt 0.9 ['a', 'b'] 5 = ['a', 'b'] :=
  c7_identity_under_budget 0.9 ['a', 'b'] 5 (by decide)

/-- C8: for the input whose only content is
`moz_data.metrics.total_links = 5`, the technical and content sub-scores
are 0, the backlink sub-score is 0.45, and the overall complexity is
exactly 0.15 — the average always has exactly 3 terms, with the absent
sections contributing 0. -/
theorem c8_moz_only_average :
    calculate_technical_complexity TechnicalSeo.empty = 0 ∧
    calculate_content_complexity ScrapedData.empty = 0 ∧
    calculate_backlink_complexity ⟨some ⟨some 5, none⟩⟩ = 0.45 ∧
    calculate_complexity ⟨none, none, some ⟨some ⟨some 5, none⟩⟩⟩
      = 0.15 := by
  refine ⟨?_, ?_, ?_, ?_⟩
  · unfold calculate_technical_complexity TechnicalSeo.empty
    norm_num
  · unfold calculate_content_complexity ScrapedData.empty Content.empty
    norm_num
  · unfold calculate_backlink_complexity Metrics.empty
    norm_num
  · norm_num [calculate_complexity, calculate_technical_complexity,
      calculate_content_complexity, calculate_backlink_complexity,
      TechnicalSeo.empty, ScrapedData.empty, Content.empty, Metrics.empty]

/-- C9: with a content section present, the word-count factor contributes
0.8 when the word count exceeds 1000, otherwise 0.6 when it is below 300,
and nothing for word counts between 300 and 1000 inclusive; the two
additions are mutually exclusive, and the factor counts as 1 toward the
divisor (divisor 1 without a paragraph count, 2 with one). -/
theorem c9_word_count_factor (wc p : ℚ) :
    calculate_content_complexity ⟨some ⟨some wc, none⟩⟩
        = (if 1000 < wc then (0.8 : ℚ) else if wc < 300 then 0.6 else 0) ∧
    calculate_content_complexity ⟨some ⟨some wc, some p⟩⟩
        = ((if 1000 < wc then (0.8 : ℚ) else if wc < 300 then 0.6 else 0)
            + (if 10 < p then (0.7 : ℚ) else 0)) / 2 ∧
    ¬ (1000 < wc ∧ wc < 300) := by
  refine ⟨?_, ?_, ?_⟩
  · unfold calculate_content_complexity
    dsimp only [Content.empty, Option.getD]
    rw [if_pos (by norm_num : (0 : ℕ) < 1 + 0)]
    split_ifs <;> norm_num
  · unfold calculate_content_complexity
    dsimp only [Content.empty, Option.getD]
    rw [if_pos (by norm_num : (0 : ℕ) < 1 + 1)]
    split_ifs <;> norm_num
  · rintro ⟨h1, h2⟩
    linarith

/-- C10: for every prompt, non-negative token budget, and
`token_buffer ∈ (0, 1]`, `optimize_prompt` returns a prefix of the prompt
whose estimated token count fits the budget. -/
theorem c10_truncation_fits_budget (tb : ℚ) (prompt : List Char)
    (max_tokens : ℕ) (_h0 : 0 < tb) (h1 : tb ≤ 1) :
    (∃ k, optimize_prompt tb prompt max_tokens = prompt.take k) ∧
    estimate_tokens (optimize_prompt tb prompt max_tokens) ≤ max_tokens := by
  unfold optimize_prompt
  dsimp only
  by_cases hle : estimate_tokens prompt ≤ max_tokens
  · rw [if_pos hle]
    exact ⟨⟨prompt.length, (List.take_length prompt).symm⟩, hle⟩
  · rw [if_neg hle]
    push_neg at hle
    set E := estimate_tokens prompt with hE
    have hEdef : E = prompt.length / 4 := hE
    have hEpos : 0 < E := lt_of_le_of_lt (Nat.zero_le _) hle
    have hEQpos : (0 : ℚ) < (E : ℚ) := by exact_mod_cast hEpos
    set v : ℚ := (prompt.length : ℚ) * ((max_tokens : ℚ) / (E : ℚ)) * tb
      with hv
    refine ⟨⟨_, rfl⟩, ?_⟩
    have hlen4 : prompt.length ≤ 4 * E + 3 := by
      have hdm := Nat.div_add_mod prompt.length 4
      have h4 : prompt.length % 4 < 4 := Nat.mod_lt _ (by norm_num)
      omega
    have key : v < 4 * (max_tokens : ℚ) + 3 := by
      have hb1 : v ≤ (prompt.length : ℚ) * ((max_tokens : ℚ) / (E : ℚ)) := by
        rw [hv]
        exact mul_le_of_le_one_right (by positivity) h1
      have hb2 : (prompt.length : ℚ) * ((max_tokens : ℚ) / (E : ℚ))
          ≤ ((4 * E + 3 : ℕ) : ℚ) * ((max_tokens : ℚ) / (E : ℚ)) := by
        apply mul_le_mul_of_nonneg_right (by exact_mod_cast hlen4)
          (by positivity)
      have hME : (max_tokens : ℚ) < (E : ℚ) := by exact_mod_cast hle
      have hb3 : ((4 * E + 3 : ℕ) : ℚ) * ((max_tokens : ℚ) / (E : ℚ))
          < 4 * (max_tokens : ℚ) + 3 := by
        rw [mul_comm, div_mul_eq_mul_div, div_lt_iff₀ hEQpos]
        push_cast
        nlinarith
      linarith
    have hfl : ⌊v⌋ < 4 * (max_tokens : ℤ) + 3 := by
      have hf1 : (⌊v⌋ : ℚ) ≤ v := Int.floor_le v
      have hf2 : (⌊v⌋ : ℚ) < 4 * (max_tokens : ℚ) + 3 :=
        lt_of_le_of_lt hf1 key
      exact_mod_cast hf2
    have htn : (⌊v⌋).toNat ≤ 4 * max_tokens + 2 := by omega
    have hlen : (prompt.take ((⌊v⌋).toNat)).length ≤ (⌊v⌋).toNat := by
      simp [List.length_take]
    unfold estimate_tokens
    omega

/-- Witness for C10: a 12-character prompt with budget 1 and buffer 0.9 is
cut to a prefix (its first 3 characters) whose estimate 0 fits. -/
theorem c10_truncation_fits_budget_witness :
    (∃ k, optimize_prompt 0.9
        ['a', 'b', 'c', 'd', 'e', 'f', 'g', 'h', 'i', 'j', 'k', 'l'] 1
      = List.take k
        ['a', 'b', 'c', 'd', 'e', 'f', 'g', 'h', 'i', 'j', 'k', 'l']) ∧
    estimate_tokens (optimize_prompt 0.9
        ['a', 'b', 'c', 'd', 'e', 'f', 'g', 'h', 'i', 'j', 'k', 'l'] 1)
      ≤ 1 :=
  c10_truncation_fits_budget 0.9
    ['a', 'b', 'c', 'd', 'e', 'f', 'g', 'h', 'i', 'j', 'k', 'l'] 1
    (by norm_num) (by norm_num)

end CostOptimizer
